import Mathlib

/-!
# Verification of the Startup Ideas Collector

Shallow embedding of the data model and operations of the
startup-ideas repository (FastAPI backend + Next.js frontend), with
theorems settling the specification's claims.

The frontend TypeScript (lib/api.ts, components, pages) is embedded
directly from the source.  The backend Python pipeline (orchestrator,
scoring engine, DB layer) is not part of the available sources; those
operations are modelled from the specification, as marked in each
doc comment.
-/

namespace StartupIdeas

/-! ## Scoring Engine -/

/-- Clamp a rational to the interval `[lo, hi]`. -/
def clamp (lo hi x : ℚ) : ℚ := max lo (min hi x)

/-- Modelled from the spec: the backend Scoring Engine
(`services/orchestrator.py`, not under the available sources).
Given `market_score` (or null when market analysis is absent) and
`severity` (or null when absent), it computes
`clamp(market_score * 0.7 + severity * 3, 0, 100)` when both inputs are
present, and leaves the overall score null when `market_score` is
absent. -/
def overallConfidenceScore (market_score : Option ℚ) (severity : Option ℚ) : Option ℚ :=
  match market_score, severity with
  | some m, some s => some (clamp 0 100 (m * (7 / 10) + s * 3))
  | _, _ => none

/-! ## Analysis tier -/

/-- The `analysis_tier` of a Problem, from
`frontend/types/index.ts` (`'none' | 'basic' | 'deep'`). -/
inductive AnalysisTier
  | tierNone
  | basic
  | deep
deriving DecidableEq, Repr

/-- Numeric rank of a tier: `none < basic < deep`. -/
def AnalysisTier.rank : AnalysisTier → Nat
  | .tierNone => 0
  | .basic => 1
  | .deep => 2

/-- Modelled from the spec: the backend write guard on
`problems.analysis_tier` (DB layer, not under the available sources).
A write of a tier strictly lower than the current one is rejected
(`none` result); otherwise the new tier is stored. -/
def writeTier (current attempted : AnalysisTier) : Option AnalysisTier :=
  if attempted.rank < current.rank then none else some attempted

/-- Apply a sequence of attempted tier writes; rejected writes leave the
tier unchanged. -/
def applyTierWrites (current : AnalysisTier) : List AnalysisTier → AnalysisTier
  | [] => current
  | t :: ts =>
    match writeTier current t with
    | none => applyTierWrites current ts
    | some t' => applyTierWrites t' ts

/-! ## Theorems: C1, C3 -/

/-- C1: the overall confidence score is a pure function of market score
and severity: for market_score ∈ [0,100] and severity ∈ [1,10] it equals
`clamp(market_score * 0.7 + severity * 3, 0, 100)`; when market_score is
null the overall score is null; recomputation is deterministic; at
market_score = 80, severity 4 gives 68 and severity 9 gives 83. -/
theorem overall_score_pure_function (m s : ℚ)
    (hm : 0 ≤ m ∧ m ≤ 100) (hs : 1 ≤ s ∧ s ≤ 10) :
    overallConfidenceScore (some m) (some s)
        = some (clamp 0 100 (m * (7 / 10) + s * 3))
      ∧ overallConfidenceScore none (some s) = none
      ∧ overallConfidenceScore (some m) (some s)
          = overallConfidenceScore (some m) (some s)
      ∧ overallConfidenceScore (some 80) (some 4) = some 68
      ∧ overallConfidenceScore (some 80) (some 9) = some 83 := by
  refine ⟨rfl, rfl, rfl, ?_, ?_⟩ <;>
    simp [overallConfidenceScore, clamp] <;> norm_num

/-- C1 witness: instantiation at market_score = 80, severity = 4. -/
theorem overall_score_pure_function_witness :
    (0 ≤ (80 : ℚ) ∧ (80 : ℚ) ≤ 100) ∧ (1 ≤ (4 : ℚ) ∧ (4 : ℚ) ≤ 10) ∧
      (overallConfidenceScore (some 80) (some 4)
          = some (clamp 0 100 (80 * (7 / 10) + 4 * 3))
        ∧ overallConfidenceScore none (some 4) = none
        ∧ overallConfidenceScore (some 80) (some 4)
            = overallConfidenceScore (some 80) (some 4)
        ∧ overallConfidenceScore (some 80) (some 4) = some 68
        ∧ overallConfidenceScore (some 80) (some 9) = some 83) :=
  ⟨by norm_num, by norm_num,
    overall_score_pure_function 80 4 (by norm_num) (by norm_num)⟩

/-- Along any sequence of attempted tier writes the tier rank never
drops below its starting value. -/
lemma applyTierWrites_rank_le (ws : List AnalysisTier) :
    ∀ cur : AnalysisTier, cur.rank ≤ (applyTierWrites cur ws).rank := by
  induction ws with
  | nil => intro cur; simp [applyTierWrites]
  | cons w ws ih =>
    intro cur
    by_cases hw : w.rank < cur.rank
    · simpa [applyTierWrites, writeTier, hw] using ih cur
    · have h1 := ih w
      simp [applyTierWrites, writeTier, hw]
      omega

/-- C3: `analysis_tier` only ever increases along none → basic → deep:
a write of a strictly lower tier is rejected, an accepted write never
lowers the rank, and along any sequence of attempted writes the tier
rank never drops below its starting value. -/
theorem analysis_tier_monotone (cur t : AnalysisTier) (ws : List AnalysisTier)
    (hlt : t.rank < cur.rank) :
    writeTier cur t = none
      ∧ (∀ c a r, writeTier c a = some r → c.rank ≤ r.rank)
      ∧ cur.rank ≤ (applyTierWrites cur ws).rank := by
  refine ⟨by simp [writeTier, hlt], ?_, applyTierWrites_rank_le ws cur⟩
  intro c a r h
  by_cases hca : a.rank < c.rank
  · simp [writeTier, hca] at h
  · simp [writeTier, hca] at h
    subst h
    omega

/-- C3 witness: a downgrade attempt deep → basic is rejected, and the
write sequence [basic, deep, basic] starting at `none` never lowers the
tier. -/
theorem analysis_tier_monotone_witness :
    AnalysisTier.basic.rank < AnalysisTier.deep.rank ∧
      (writeTier .deep .basic = none
        ∧ (∀ c a r, writeTier c a = some r → c.rank ≤ r.rank)
        ∧ AnalysisTier.deep.rank
            ≤ (applyTierWrites .deep [.basic, .deep, .basic]).rank) :=
  ⟨by decide,
    analysis_tier_monotone .deep .basic [.basic, .deep, .basic] (by decide)⟩

/-! ## Card workflow -/

/-- `CardStatus`, from `frontend/types/index.ts`:
`'new' | 'viewed' | 'in_review' | 'verified' | 'archived' | 'rejected'`. -/
inductive CardStatus
  | new
  | viewed
  | in_review
  | verified
  | archived
  | rejected
deriving DecidableEq, Repr

/-- The card-management sub-state of a Problem
(`frontend/types/index.ts`, `Problem.card_status` / `Problem.view_count`). -/
structure CardState where
  card_status : CardStatus
  view_count : Nat
deriving DecidableEq, Repr

/-- Modelled from the spec: the backend creates each Problem card with
`card_status = new` (and no views yet). -/
def initialCard : CardState := ⟨.new, 0⟩

/-- Modelled from the spec: the backend read endpoint
`GET /api/problems/{id}` increments `view_count` and transitions
`new → viewed` on the first read, leaving any other status unchanged. -/
def readProblem (c : CardState) : CardState :=
  { card_status := if c.card_status = .new then .viewed else c.card_status
    view_count := c.view_count + 1 }

/-- The explicit status actions offered by the problem detail page
(`statusActions` in the detail page component): exactly
in_review, verified, archived, rejected. -/
inductive ReviewAction
  | toInReview
  | toVerified
  | toArchived
  | toRejected
deriving DecidableEq, Repr

/-- Target status of each explicit status action. -/
def ReviewAction.target : ReviewAction → CardStatus
  | .toInReview => .in_review
  | .toVerified => .verified
  | .toArchived => .archived
  | .toRejected => .rejected

/-- The operations that touch a card: a read, an explicit status
action, or restoring from the archive (`handleRestore` in
`frontend/app/archive/page.tsx`, which calls
`updateCardStatus(problemId, 'viewed')`). -/
inductive CardOp
  | read
  | act (a : ReviewAction)
  | restore
deriving DecidableEq, Repr

/-- One card operation.  Status writes are modelled from the spec
(the backend `PATCH /api/problems/{id}/status` stores the given
status); the set of statuses ever written comes from the frontend
source. -/
def cardStep (c : CardState) : CardOp → CardState
  | .read => readProblem c
  | .act a => { c with card_status := a.target }
  | .restore => { c with card_status := .viewed }

/-! ## Discussion ingestion -/

/-- A raw scraped discussion candidate, after the source fetcher
(fields from the `discussions` table of the architecture document). -/
structure Candidate where
  url : String
  external_id : String
  title : String
  content : String
  author : String
  upvotes : Nat
  comments_count : Nat
deriving DecidableEq, Repr

/-- A stored Discussion row: the candidate fields plus the two
pipeline flags (`is_analyzed`, tri-state `passed_filter`). -/
structure Discussion where
  url : String
  external_id : String
  title : String
  content : String
  author : String
  upvotes : Nat
  comments_count : Nat
  is_analyzed : Bool
  passed_filter : Option Bool
deriving DecidableEq, Repr

/-- Result of ingesting one candidate. -/
inductive IngestResult
  | created
  | duplicate
deriving DecidableEq, Repr

/-- A freshly ingested Discussion row: flags unset. -/
def mkDiscussion (c : Candidate) : Discussion :=
  { url := c.url, external_id := c.external_id, title := c.title
    content := c.content, author := c.author, upvotes := c.upvotes
    comments_count := c.comments_count
    is_analyzed := false, passed_filter := none }

/-- Modelled from the spec: the Discussion Store's
`ingest(candidate) -> created | duplicate`, keyed by canonical URL
(`discussions.url` is unique); a duplicate is a no-op that overwrites
nothing. -/
def ingest (store : List Discussion) (c : Candidate) :
    List Discussion × IngestResult :=
  if store.any (fun d => d.url == c.url) then (store, .duplicate)
  else (store ++ [mkDiscussion c], .created)

/-! ## Theorems: C2, C4 -/

/-- C2: a card starts at status `new`; the first read moves it to
`viewed` with `view_count = 1`; once the status is not `new`, reads only
increment `view_count`; explicit status actions can reach each of
in_review, verified, archived, rejected; and no operation (restore
included) ever sets the status back to `new`. -/
theorem card_workflow (c : CardState) (a : ReviewAction)
    (hc : c.card_status ≠ .new) :
    initialCard.card_status = .new
      ∧ cardStep initialCard .read = ⟨.viewed, 1⟩
      ∧ (cardStep c .read).card_status = c.card_status
      ∧ (cardStep c .read).view_count = c.view_count + 1
      ∧ (cardStep c (.act a)).card_status = a.target
      ∧ (∀ t : CardStatus,
          t = .in_review ∨ t = .verified ∨ t = .archived ∨ t = .rejected →
            ∃ b : ReviewAction, b.target = t)
      ∧ ∀ (c' : CardState) (op : CardOp),
          (cardStep c' op).card_status ≠ .new := by
  refine ⟨rfl, rfl, by simp [cardStep, readProblem, hc], rfl, rfl, ?_, ?_⟩
  · rintro t (rfl | rfl | rfl | rfl)
    exacts [⟨.toInReview, rfl⟩, ⟨.toVerified, rfl⟩,
      ⟨.toArchived, rfl⟩, ⟨.toRejected, rfl⟩]
  · intro c' op
    cases op with
    | read =>
      by_cases h : c'.card_status = CardStatus.new <;>
        simp [cardStep, readProblem, h]
    | act b => cases b <;> simp [cardStep, ReviewAction.target]
    | restore => simp [cardStep]

/-- C2 witness: instantiation at a viewed card with one view. -/
theorem card_workflow_witness :
    (⟨.viewed, 1⟩ : CardState).card_status ≠ .new ∧
      (initialCard.card_status = .new
        ∧ cardStep initialCard .read = ⟨.viewed, 1⟩
        ∧ (cardStep ⟨.viewed, 1⟩ .read).card_status
            = (⟨.viewed, 1⟩ : CardState).card_status
        ∧ (cardStep ⟨.viewed, 1⟩ .read).view_count
            = (⟨.viewed, 1⟩ : CardState).view_count + 1
        ∧ (cardStep ⟨.viewed, 1⟩ (.act .toVerified)).card_status
            = ReviewAction.toVerified.target
        ∧ (∀ t : CardStatus,
            t = .in_review ∨ t = .verified ∨ t = .archived ∨ t = .rejected →
              ∃ b : ReviewAction, b.target = t)
        ∧ ∀ (c' : CardState) (op : CardOp),
            (cardStep c' op).card_status ≠ .new) :=
  ⟨by decide, card_workflow ⟨.viewed, 1⟩ .toVerified (by decide)⟩

/-- C4: ingestion is idempotent and non-destructive on duplicates:
from a store without the candidate's URL, the first ingest returns
`created`, the second ingest of the same canonical URL returns
`duplicate`, leaves the store exactly unchanged (hence alters no field
of the existing row), and the store holds exactly one row with that
URL. -/
theorem ingest_idempotent (store : List Discussion) (c : Candidate)
    (h : ∀ d ∈ store, d.url ≠ c.url) :
    (ingest store c).2 = .created
      ∧ (ingest (ingest store c).1 c).2 = .duplicate
      ∧ (ingest (ingest store c).1 c).1 = (ingest store c).1
      ∧ ((ingest store c).1.filter (fun d => d.url == c.url)).length = 1 := by
  have hany : (store.any fun d => d.url == c.url) = false := by
    simp only [List.any_eq_false, beq_iff_eq]
    exact h
  have hfilter : (store.filter fun d => d.url == c.url) = [] := by
    simp only [List.filter_eq_nil_iff, beq_iff_eq]
    exact h
  have hany2 : ((store ++ [mkDiscussion c]).any fun d => d.url == c.url) = true := by
    simp [List.any_append, mkDiscussion]
  refine ⟨by simp [ingest, hany], ?_, ?_, ?_⟩
  · simp [ingest, hany, hany2]
  · simp [ingest, hany, hany2]
  · simp [ingest, hany, List.filter_append, hfilter, mkDiscussion]

/-- C4 witness: ingesting a concrete candidate twice into the empty
store. -/
theorem ingest_idempotent_witness :
    (∀ d ∈ ([] : List Discussion), d.url ≠ "https://x/1") ∧
      ((ingest [] ⟨"https://x/1", "1", "t", "b", "a", 3, 2⟩).2 = .created
        ∧ (ingest (ingest [] ⟨"https://x/1", "1", "t", "b", "a", 3, 2⟩).1
            ⟨"https://x/1", "1", "t", "b", "a", 3, 2⟩).2 = .duplicate
        ∧ (ingest (ingest [] ⟨"https://x/1", "1", "t", "b", "a", 3, 2⟩).1
            ⟨"https://x/1", "1", "t", "b", "a", 3, 2⟩).1
            = (ingest [] ⟨"https://x/1", "1", "t", "b", "a", 3, 2⟩).1
        ∧ ((ingest [] ⟨"https://x/1", "1", "t", "b", "a", 3, 2⟩).1.filter
            (fun d => d.url == "https://x/1")).length = 1) :=
  ⟨by simp, ingest_idempotent [] ⟨"https://x/1", "1", "t", "b", "a", 3, 2⟩
    (by simp)⟩

/-! ## Deep analysis output -/

/-- A generated startup idea (`startup_ideas` table /
`frontend/types/index.ts`). -/
structure StartupIdea where
  idea_title : String
  description : String
  approach : String
  value_proposition : String
  core_features : List String
deriving DecidableEq, Repr

/-- The validated output of the extraction model: one problem plus its
idea batch. -/
structure ExtractedProblem where
  problem_statement : String
  severity : Nat
  ideas : List StartupIdea
deriving DecidableEq, Repr

/-- A market analysis result (only the score matters here). -/
structure MarketAnalysis where
  market_score : Nat
deriving DecidableEq, Repr

/-! ## Orchestrator run -/

/-- Status of a `ScrapeRun` (`frontend/types/index.ts`,
`ScrapeLogEntry.status`: `'running' | 'completed' | 'failed'`). -/
inductive RunStatus
  | running
  | completed
  | failed
deriving DecidableEq, Repr

/-- The bookkeeping record of one orchestrator run
(`scrape_logs` table / `ScrapeLogEntry`). -/
structure ScrapeLog where
  status : RunStatus
  discussions_found : Nat
  problems_created : Nat
  failures : List String
deriving DecidableEq, Repr

/-- The run's `error_message` field: the joined per-item failures, or
null when there were none. -/
def ScrapeLog.errorMessage (log : ScrapeLog) : Option String :=
  if log.failures.isEmpty then none
  else some (String.intercalate "; " log.failures)

/-- Modelled from the spec: the per-discussion pipeline of the
orchestrator (filter → deep analysis → market analysis).  Returns how
many problems the item created (0 or 1) and its per-item failure
messages; every per-item error is caught here and never escapes. -/
def processItem (classify : Candidate → Except String Bool)
    (extract : Candidate → Except String ExtractedProblem)
    (market : ExtractedProblem → Except String MarketAnalysis)
    (cand : Candidate) : Nat × List String :=
  match classify cand with
  | .error e => (0, ["classification failed for " ++ cand.url ++ ": " ++ e])
  | .ok false => (0, [])
  | .ok true =>
    match extract cand with
    | .error e => (0, ["extraction failed for " ++ cand.url ++ ": " ++ e])
    | .ok p =>
      match market p with
      | .error e => (1, ["market analysis failed for " ++ cand.url ++ ": " ++ e])
      | .ok _ => (1, [])

/-- Modelled from the spec: one orchestrator run.  A run-level fetch
failure fails the whole run; otherwise the run completes regardless of
per-item failures, counting the fetched discussions and the created
problems and aggregating the per-item failures. -/
def runPipeline (fetch : Except String (List Candidate))
    (classify : Candidate → Except String Bool)
    (extract : Candidate → Except String ExtractedProblem)
    (market : ExtractedProblem → Except String MarketAnalysis) : ScrapeLog :=
  match fetch with
  | .error e =>
    { status := .failed, discussions_found := 0, problems_created := 0
      failures := [e] }
  | .ok cands =>
    let results := cands.map (processItem classify extract market)
    { status := .completed
      discussions_found := cands.length
      problems_created := (results.map Prod.fst).sum
      failures := (results.map Prod.snd).flatten }

/-! ## Reference scenario for the orchestrator -/

/-- The i-th candidate of the reference scenario. -/
def scenarioCand (i : Nat) : Candidate :=
  { url := "u" ++ toString i, external_id := toString i, title := "t"
    content := "b", author := "a", upvotes := 1, comments_count := 0 }

/-- The ten ingested discussions of the reference scenario. -/
def scenarioCands : List Candidate :=
  (List.range 10).map (fun i => scenarioCand (i + 1))

/-- Scenario classifier: passes exactly u1, u2, u3. -/
def scenarioClassify (c : Candidate) : Except String Bool :=
  .ok (c.url == "u1" || c.url == "u2" || c.url == "u3")

/-- Scenario extractor: succeeds for u1 and u2, fails validation for
u3. -/
def scenarioExtract (c : Candidate) : Except String ExtractedProblem :=
  if c.url == "u3" then .error "severity 11 out of range 1-10"
  else .ok { problem_statement := "p-" ++ c.url, severity := 5
             ideas := [⟨"i1", "d", "SaaS", "v", ["f"]⟩, ⟨"i2", "d", "tool", "v", ["f"]⟩] }

/-- Scenario market stage: succeeds for every problem. -/
def scenarioMarket (_ : ExtractedProblem) : Except String MarketAnalysis :=
  .ok ⟨70⟩

/-! ## Atomic persistence of the deep-analysis batch -/

/-- The deep-analysis tables: problems and ideas keyed by problem id. -/
structure DeepDB where
  problems : List (Nat × ExtractedProblem)
  ideas : List (Nat × StartupIdea)
deriving DecidableEq, Repr

/-- The idea rows stored for one problem. -/
def ideasFor (db : DeepDB) (pid : Nat) : List (Nat × StartupIdea) :=
  db.ideas.filter (fun r => r.1 == pid)

/-- Sequential insertion of idea rows, one by one; the write of index
`i` fails when `failAt = some i` (an injected mid-batch failure). -/
def insertIdeasSeq (pid : Nat) (failAt : Option Nat) :
    Nat → List StartupIdea → Except String (List (Nat × StartupIdea))
  | _, [] => .ok []
  | i, idea :: rest =>
    if failAt = some i then .error "idea insert failed"
    else
      match insertIdeasSeq pid failAt (i + 1) rest with
      | .error e => .error e
      | .ok rows => .ok ((pid, idea) :: rows)

/-- Modelled from the spec: the Deep Analysis Stage persists one
Problem plus its 2–4 StartupIdea records atomically as a batch — the
inserts run inside one transaction, and any failure partway rolls the
database back to its prior state. -/
def persistBatch (db : DeepDB) (pid : Nat) (p : ExtractedProblem)
    (failAt : Option Nat) : DeepDB × Bool :=
  match insertIdeasSeq pid failAt 0 p.ideas with
  | .error _ => (db, false)
  | .ok rows =>
    ({ problems := db.problems ++ [(pid, p)], ideas := db.ideas ++ rows }, true)

/-! ## Filter gate -/

/-- Modelled from the spec: the Filter Stage applied to one discussion.
On classifier success the `passed_filter` flag is set to the verdict;
on a classifier error (timeout, malformed output) the discussion is
left untouched and a per-discussion failure is surfaced. -/
def applyFilter (d : Discussion) (result : Except String Bool) :
    Discussion × Option String :=
  match result with
  | .ok b => ({ d with passed_filter := some b }, none)
  | .error e => (d, some ("classification failed for " ++ d.url ++ ": " ++ e))

/-- Modelled from the spec: the next run's query for unfiltered
discussions — those whose `passed_filter` is still unset. -/
def unfilteredQuery (store : List Discussion) : List Discussion :=
  store.filter (fun d => d.passed_filter.isNone)

/-! ## Theorems: C5, C6, C7 -/

/-- C5: a run completes on normal exit whatever the per-item outcomes,
fails exactly when the run-level fetch throws, and on the reference
scenario (10 discussions, classifier passes 3, extractor succeeds for 2
and fails validation for 1, market succeeds for both) it completes with
`discussions_found = 10`, `problems_created = 2` and an error message
listing exactly the one extraction failure. -/
theorem scrape_run_state_machine (cands : List Candidate) (e : String)
    (classify : Candidate → Except String Bool)
    (extract : Candidate → Except String ExtractedProblem)
    (market : ExtractedProblem → Except String MarketAnalysis) :
    (runPipeline (.ok cands) classify extract market).status = .completed
      ∧ (runPipeline (.error e) classify extract market).status = .failed
      ∧ runPipeline (.ok scenarioCands) scenarioClassify scenarioExtract
          scenarioMarket
        = { status := .completed, discussions_found := 10
            problems_created := 2
            failures := ["extraction failed for u3: severity 11 out of range 1-10"] }
      ∧ (runPipeline (.ok scenarioCands) scenarioClassify scenarioExtract
          scenarioMarket).errorMessage
        = some "extraction failed for u3: severity 11 out of range 1-10" := by
  refine ⟨rfl, rfl, ?_, ?_⟩ <;> rfl

/-- Every idea row produced by a fully successful sequential insert
carries the given problem id, and there is one row per idea. -/
lemma insertIdeasSeq_ok (pid : Nat) (ideas : List StartupIdea) :
    ∀ start, insertIdeasSeq pid none start ideas
      = .ok (ideas.map (fun idea => (pid, idea))) := by
  induction ideas with
  | nil => intro start; rfl
  | cons idea rest ih =>
    intro start
    simp [insertIdeasSeq, ih (start + 1)]

/-- A sequential insert with an injected failure at an index inside the
batch fails. -/
lemma insertIdeasSeq_error (pid : Nat) (ideas : List StartupIdea) :
    ∀ start i, start ≤ i → i < start + ideas.length →
      insertIdeasSeq pid (some i) start ideas = .error "idea insert failed" := by
  induction ideas with
  | nil =>
    intro start i h1 h2
    simp at h2
    omega
  | cons idea rest ih =>
    intro start i h1 h2
    by_cases hi : i = start
    · simp [insertIdeasSeq, hi]
    · have h1' : start + 1 ≤ i := by omega
      have h2' : i < (start + 1) + rest.length := by
        simp at h2
        omega
      simp [insertIdeasSeq, ih (start + 1) i h1' h2', Ne.symm hi]

/-- C6: the deep-analysis batch is atomic: a failure while persisting
idea `i` of the batch leaves the database exactly as before — in
particular zero ideas for that problem — while a failure-free persist
stores the full batch. -/
theorem atomic_idea_batch (db : DeepDB) (pid : Nat) (p : ExtractedProblem)
    (i : Nat) (hprior : ideasFor db pid = []) (hfail : i < p.ideas.length) :
    (persistBatch db pid p (some i)).2 = false
      ∧ (persistBatch db pid p (some i)).1 = db
      ∧ ideasFor (persistBatch db pid p (some i)).1 pid = []
      ∧ (persistBatch db pid p none).2 = true
      ∧ (ideasFor (persistBatch db pid p none).1 pid).length
          = p.ideas.length := by
  have herr := insertIdeasSeq_error pid p.ideas 0 i (Nat.zero_le i)
    (by simpa using hfail)
  have hok := insertIdeasSeq_ok pid p.ideas 0
  refine ⟨by simp [persistBatch, herr], by simp [persistBatch, herr],
    by simp [persistBatch, herr, hprior], by simp [persistBatch, hok], ?_⟩
  simp only [persistBatch, hok]
  simp only [ideasFor] at hprior ⊢
  simp [List.filter_append, hprior, List.filter_map, Function.comp_def]

/-- C6 witness: a two-idea batch with a failure at the second idea,
against the empty database. -/
theorem atomic_idea_batch_witness :
    ideasFor ⟨[], []⟩ 1 = [] ∧
      1 < (⟨"p", 5, [⟨"i1", "d", "SaaS", "v", []⟩, ⟨"i2", "d", "tool", "v", []⟩]⟩ :
        ExtractedProblem).ideas.length ∧
      ((persistBatch ⟨[], []⟩ 1
          ⟨"p", 5, [⟨"i1", "d", "SaaS", "v", []⟩, ⟨"i2", "d", "tool", "v", []⟩]⟩
          (some 1)).2 = false
        ∧ (persistBatch ⟨[], []⟩ 1
            ⟨"p", 5, [⟨"i1", "d", "SaaS", "v", []⟩, ⟨"i2", "d", "tool", "v", []⟩]⟩
            (some 1)).1 = ⟨[], []⟩
        ∧ ideasFor (persistBatch ⟨[], []⟩ 1
            ⟨"p", 5, [⟨"i1", "d", "SaaS", "v", []⟩, ⟨"i2", "d", "tool", "v", []⟩]⟩
            (some 1)).1 1 = []
        ∧ (persistBatch ⟨[], []⟩ 1
            ⟨"p", 5, [⟨"i1", "d", "SaaS", "v", []⟩, ⟨"i2", "d", "tool", "v", []⟩]⟩
            none).2 = true
        ∧ (ideasFor (persistBatch ⟨[], []⟩ 1
            ⟨"p", 5, [⟨"i1", "d", "SaaS", "v", []⟩, ⟨"i2", "d", "tool", "v", []⟩]⟩
            none).1 1).length
          = (⟨"p", 5, [⟨"i1", "d", "SaaS", "v", []⟩, ⟨"i2", "d", "tool", "v", []⟩]⟩ :
              ExtractedProblem).ideas.length) :=
  ⟨rfl, by decide,
    atomic_idea_batch ⟨[], []⟩ 1
      ⟨"p", 5, [⟨"i1", "d", "SaaS", "v", []⟩, ⟨"i2", "d", "tool", "v", []⟩]⟩
      1 rfl (by decide)⟩

/-- C7: a classifier error leaves the discussion's `passed_filter`
unset (neither defaulted to pass nor to fail), surfaces a per-item
failure, and the discussion is picked up by the next run's query for
unfiltered discussions; by contrast a classifier success records the
verdict. -/
theorem filter_error_leaves_unmarked (d : Discussion) (e : String)
    (store : List Discussion) (hd : d.passed_filter = none)
    (hmem : (applyFilter d (.error e)).1 ∈ store) :
    (applyFilter d (.error e)).1.passed_filter = none
      ∧ (applyFilter d (.error e)).2
          = some ("classification failed for " ++ d.url ++ ": " ++ e)
      ∧ (applyFilter d (.error e)).1 ∈ unfilteredQuery store
      ∧ ∀ b, (applyFilter d (.ok b)).1.passed_filter = some b := by
  refine ⟨hd, rfl, ?_, fun b => rfl⟩
  have hmem' : d ∈ store := by simpa [applyFilter] using hmem
  simp [unfilteredQuery, List.mem_filter, applyFilter, hd, hmem']

/-- C7 witness: a concrete unfiltered discussion whose classification
call times out. -/
theorem filter_error_leaves_unmarked_witness :
    (mkDiscussion ⟨"u", "1", "t", "b", "a", 1, 0⟩).passed_filter = none ∧
      (applyFilter (mkDiscussion ⟨"u", "1", "t", "b", "a", 1, 0⟩)
        (.error "timeout")).1 ∈ [mkDiscussion ⟨"u", "1", "t", "b", "a", 1, 0⟩] ∧
      ((applyFilter (mkDiscussion ⟨"u", "1", "t", "b", "a", 1, 0⟩)
          (.error "timeout")).1.passed_filter = none
        ∧ (applyFilter (mkDiscussion ⟨"u", "1", "t", "b", "a", 1, 0⟩)
            (.error "timeout")).2
          = some ("classification failed for "
              ++ (mkDiscussion ⟨"u", "1", "t", "b", "a", 1, 0⟩).url ++ ": "
              ++ "timeout")
        ∧ (applyFilter (mkDiscussion ⟨"u", "1", "t", "b", "a", 1, 0⟩)
            (.error "timeout")).1
            ∈ unfilteredQuery [mkDiscussion ⟨"u", "1", "t", "b", "a", 1, 0⟩]
        ∧ ∀ b, (applyFilter (mkDiscussion ⟨"u", "1", "t", "b", "a", 1, 0⟩)
            (.ok b)).1.passed_filter = some b) :=
  ⟨rfl, by simp [applyFilter],
    filter_error_leaves_unmarked (mkDiscussion ⟨"u", "1", "t", "b", "a", 1, 0⟩)
      "timeout" [mkDiscussion ⟨"u", "1", "t", "b", "a", 1, 0⟩] rfl
      (by simp [applyFilter])⟩

/-! ## ApiClient.triggerScrape (frontend/lib/api.ts) -/

/-- The `ScrapeSource` union from `frontend/types/index.ts`:
`'reddit' | 'hackernews' | 'youtube' | 'medium' | 'all'`. -/
inductive ScrapeSource
  | reddit
  | hackernews
  | youtube
  | medium
  | all
deriving DecidableEq, Repr

/-- The string carried by each `ScrapeSource` value. -/
def ScrapeSource.toStr : ScrapeSource → String
  | .reddit => "reddit"
  | .hackernews => "hackernews"
  | .youtube => "youtube"
  | .medium => "medium"
  | .all => "all"

/-- JavaScript `x || d` on an optional number: the default applies when
the argument is absent (`undefined`) or `0`, the falsy number. -/
def jsNumOr (x : Option Int) (d : Int) : Int :=
  match x with
  | none => d
  | some v => if v = 0 then d else v

/-- From `ApiClient.triggerScrape` (`frontend/lib/api.ts`): the query
parameters of the issued request.  `params.source || 'all'` reduces to
`getD .all` because every `ScrapeSource` string is non-empty, hence
truthy; `params.limit || 10` is JavaScript numeric truthiness;
`String(params.analyze !== false)` yields `"false"` exactly for a
literal `false`. -/
def triggerScrapeQuery (source : Option ScrapeSource) (limit : Option Int)
    (analyze : Option Bool) : List (String × String) :=
  [("source", (source.getD .all).toStr),
   ("limit", toString (jsNumOr limit 10)),
   ("analyze", if analyze = some false then "false" else "true")]

/-! ## TagInput.addTag (frontend TagInput component) -/

/-- JavaScript `String.prototype.trim`: drop leading and trailing
whitespace. -/
def jsTrim (s : String) : String :=
  String.mk
    (((s.data.dropWhile Char.isWhitespace).reverse.dropWhile
      Char.isWhitespace).reverse)

/-- JavaScript `String.prototype.toLowerCase`: lowercase every
character. -/
def jsToLower (s : String) : String :=
  String.mk (s.data.map Char.toLower)

/-- From `TagInput.addTag`: normalize the input by trimming and
lowercasing; an empty or already-present normalized tag leaves the tag
list unchanged and issues no save request; otherwise the normalized tag
is appended and saved.  The boolean records whether a save request was
issued. -/
def addTag (tags : List String) (input : String) : List String × Bool :=
  let tag := jsToLower (jsTrim input)
  if tag = "" ∨ tag ∈ tags then (tags, false)
  else (tags ++ [tag], true)

/-! ## StarButton (frontend/components/StarButton.tsx) -/

/-- The component state of `StarButton`: the displayed `starred` flag,
the `loading` flag, and the value an in-flight toggle request would
commit (the `newValue` captured by `handleClick`). -/
structure StarState where
  starred : Bool
  loading : Bool
  pending : Option Bool
deriving DecidableEq, Repr

/-- The events of `StarButton.handleClick`: a user click, and the
resolution (fulfilled or rejected) of the `api.toggleStar` promise. -/
inductive StarEvent
  | click
  | apiResolve (success : Bool)
deriving DecidableEq, Repr

/-- From `StarButton.handleClick`: a click while a toggle is in flight
returns immediately; otherwise it sets `loading` and issues a request
targeting `!starred`.  A fulfilled request commits the pending value
and invokes `onToggle` with it (the second component); a rejected
request only clears `loading`, leaving `starred` unchanged and
invoking no callback. -/
def starStep (s : StarState) : StarEvent → StarState × Option Bool
  | .click =>
    if s.loading then (s, none)
    else ({ starred := s.starred, loading := true
            pending := some (!s.starred) }, none)
  | .apiResolve success =>
    match s.pending with
    | none => (s, none)
    | some v =>
      if success then
        ({ starred := v, loading := false, pending := none }, some v)
      else
        ({ s with loading := false, pending := none }, none)

/-! ## Theorems: C8, C9, C10 -/

/-- C8: the query string issued by `triggerScrape` carries the given
source (or `all` when omitted), the given limit (or `10` when omitted
or `0`), and `analyze=false` exactly when the caller passes
`analyze === false` — any other value, omission included, yields
`analyze=true`. -/
theorem trigger_scrape_query_params (source : Option ScrapeSource)
    (limit : Option Int) (analyze : Option Bool) :
    (∀ s, source = some s →
        ("source", s.toStr) ∈ triggerScrapeQuery source limit analyze)
      ∧ (source = none →
          ("source", "all") ∈ triggerScrapeQuery source limit analyze)
      ∧ (limit = none ∨ limit = some 0 →
          ("limit", "10") ∈ triggerScrapeQuery source limit analyze)
      ∧ (∀ n, limit = some n → n ≠ 0 →
          ("limit", toString n) ∈ triggerScrapeQuery source limit analyze)
      ∧ (("analyze", "false") ∈ triggerScrapeQuery source limit analyze
          ↔ analyze = some false)
      ∧ (analyze ≠ some false →
          ("analyze", "true") ∈ triggerScrapeQuery source limit analyze) := by
  refine ⟨?_, ?_, ?_, ?_, ?_, ?_⟩
  · rintro s rfl
    simp [triggerScrapeQuery]
  · rintro rfl
    simp [triggerScrapeQuery, ScrapeSource.toStr]
  · have h10 : toString (10 : Int) = "10" := rfl
    rintro (rfl | rfl) <;> simp [triggerScrapeQuery, jsNumOr, h10]
  · rintro n rfl hn
    simp [triggerScrapeQuery, jsNumOr, hn]
  · by_cases ha : analyze = some false <;> simp [triggerScrapeQuery, ha]
  · intro ha
    simp [triggerScrapeQuery, ha]

/-- C8 witness: instantiation at source reddit, limit 0, analyze
omitted — the query carries `source=reddit`, `limit=10`,
`analyze=true`. -/
theorem trigger_scrape_query_params_witness :
    (∀ s, (some ScrapeSource.reddit : Option ScrapeSource) = some s →
        ("source", s.toStr) ∈ triggerScrapeQuery (some .reddit) (some 0) none)
      ∧ ((some ScrapeSource.reddit : Option ScrapeSource) = none →
          ("source", "all") ∈ triggerScrapeQuery (some .reddit) (some 0) none)
      ∧ ((some (0 : Int) : Option Int) = none ∨ (some (0 : Int) : Option Int) = some 0 →
          ("limit", "10") ∈ triggerScrapeQuery (some .reddit) (some 0) none)
      ∧ (∀ n, (some (0 : Int) : Option Int) = some n → n ≠ 0 →
          ("limit", toString n) ∈ triggerScrapeQuery (some .reddit) (some 0) none)
      ∧ (("analyze", "false") ∈ triggerScrapeQuery (some .reddit) (some 0) none
          ↔ (none : Option Bool) = some false)
      ∧ ((none : Option Bool) ≠ some false →
          ("analyze", "true") ∈ triggerScrapeQuery (some .reddit) (some 0) none) :=
  trigger_scrape_query_params (some .reddit) (some 0) none

/-- C9: `addTag` trims and lowercases the input; when the result is
empty or already present the tag list is unchanged and no save request
is issued; otherwise exactly that normalized tag is appended, so every
element of the result was either already a tag or is the normalized
input, and a duplicate-free tag list stays duplicate-free. -/
theorem tag_input_add_tag (tags : List String) (input : String) :
    (jsToLower (jsTrim input) = "" ∨ jsToLower (jsTrim input) ∈ tags →
        addTag tags input = (tags, false))
      ∧ (jsToLower (jsTrim input) ≠ "" → jsToLower (jsTrim input) ∉ tags →
          addTag tags input = (tags ++ [jsToLower (jsTrim input)], true))
      ∧ (∀ t ∈ (addTag tags input).1, t ∈ tags ∨ t = jsToLower (jsTrim input))
      ∧ (tags.Nodup → (addTag tags input).1.Nodup) := by
  by_cases h : jsToLower (jsTrim input) = "" ∨ jsToLower (jsTrim input) ∈ tags
  · refine ⟨fun _ => by simp [addTag, h], fun h1 h2 => absurd h (by tauto),
      ?_, ?_⟩
    · intro t ht
      simp [addTag, h] at ht
      exact Or.inl ht
    · intro hn
      simpa [addTag, h] using hn
  · push_neg at h
    refine ⟨fun hc => absurd hc (by tauto), fun _ _ => by simp [addTag, h.1, h.2],
      ?_, ?_⟩
    · intro t ht
      simp [addTag, h.1, h.2] at ht
      tauto
    · intro hn
      simp [addTag, h.1, h.2, List.nodup_append, hn]

/-- C9 witness: adding input " Api " to the tag list ["x"] appends
exactly "api". -/
theorem tag_input_add_tag_witness :
    (jsToLower (jsTrim " Api ") ≠ ""
        ∧ jsToLower (jsTrim " Api ") ∉ (["x"] : List String)) ∧
      ((jsToLower (jsTrim " Api ") = ""
          ∨ jsToLower (jsTrim " Api ") ∈ (["x"] : List String) →
          addTag ["x"] " Api " = (["x"], false))
        ∧ (jsToLower (jsTrim " Api ") ≠ "" →
            jsToLower (jsTrim " Api ") ∉ (["x"] : List String) →
            addTag ["x"] " Api " = (["x"] ++ [jsToLower (jsTrim " Api ")], true))
        ∧ (∀ t ∈ (addTag ["x"] " Api ").1,
            t ∈ (["x"] : List String) ∨ t = jsToLower (jsTrim " Api "))
        ∧ ((["x"] : List String).Nodup → (addTag ["x"] " Api ").1.Nodup)) :=
  ⟨by decide, tag_input_add_tag ["x"] " Api "⟩

/-- C10: the star toggle is atomic and non-reentrant: a click while a
request is in flight is ignored; a rejected request leaves the
displayed starred state unchanged and invokes no callback; and the
displayed starred state changes only through a fulfilled API call. -/
theorem star_button_atomic (s : StarState) (hs : s.loading = true) :
    starStep s .click = (s, none)
      ∧ (∀ s' : StarState,
          (starStep s' (.apiResolve false)).1.starred = s'.starred
            ∧ (starStep s' (.apiResolve false)).2 = none)
      ∧ (∀ (s' : StarState) (ev : StarEvent),
          (starStep s' ev).1.starred ≠ s'.starred → ev = .apiResolve true) := by
  refine ⟨by simp [starStep, hs], ?_, ?_⟩
  · intro s'
    rcases hp : s'.pending with _ | v <;> simp [starStep, hp]
  · intro s' ev hne
    cases ev with
    | click =>
      exfalso
      by_cases hl : s'.loading = true <;> simp [starStep, hl] at hne
    | apiResolve success =>
      cases success
      · exfalso
        rcases hp : s'.pending with _ | v <;> simp [starStep, hp] at hne
      · rfl

/-- C10 witness: a loading StarButton with an in-flight request
targeting `true`. -/
theorem star_button_atomic_witness :
    (⟨false, true, some true⟩ : StarState).loading = true ∧
      (starStep ⟨false, true, some true⟩ .click = (⟨false, true, some true⟩, none)
        ∧ (∀ s' : StarState,
            (starStep s' (.apiResolve false)).1.starred = s'.starred
              ∧ (starStep s' (.apiResolve false)).2 = none)
        ∧ (∀ (s' : StarState) (ev : StarEvent),
            (starStep s' ev).1.starred ≠ s'.starred → ev = .apiResolve true)) :=
  ⟨rfl, star_button_atomic ⟨false, true, some true⟩ rfl⟩

end StartupIdeas
